import Mathlib

/-!
Verification development for the plt plotting library (src/plt/src/figure.rs and
src/plt/src/subplot.rs).

Modelling conventions:
  * IEEE-754 f64 values are shallowly embedded as `Ext`: either NaN, +inf, -inf, or an
    exact rational.  Arithmetic follows the IEEE special-value rules; finite arithmetic
    is exact rational arithmetic (float rounding error is not modelled; the concrete
    inputs appearing in the claims are exactly representable and small enough that the
    source computes the same values).
  * u32 / u16 machine arithmetic is `Nat` with explicit reduction mod 2^32 / 2^16 at
    every operation (release-profile wrapping semantics).
  * The `while` loops of `sigdigit` (figure.rs lines 177-197) do not terminate on every
    f64 input, so they are embedded with an explicit fuel parameter; `none` means the
    fuel ran out, i.e. the source loop has not returned after that many iterations.
-/

set_option maxRecDepth 8000

namespace Plt

/-- Model of an f64 value: NaN, +infinity, -infinity, or a finite value (exact ℚ). -/
inductive Ext where
  | nan : Ext
  | pinf : Ext
  | ninf : Ext
  | fin (q : ℚ) : Ext
deriving DecidableEq

/-- f64::is_nan. -/
def Ext.isNan : Ext → Bool
  | .nan => true
  | _ => false

/-- IEEE equality (==): false whenever either side is NaN. -/
def eeq : Ext → Ext → Bool
  | .nan, _ => false
  | _, .nan => false
  | .pinf, .pinf => true
  | .ninf, .ninf => true
  | .fin a, .fin b => a == b
  | _, _ => false

/-- IEEE strict less-than (<): false whenever either side is NaN. -/
def elt : Ext → Ext → Bool
  | .nan, _ => false
  | _, .nan => false
  | .ninf, .ninf => false
  | .ninf, _ => true
  | _, .ninf => false
  | .pinf, _ => false
  | .fin _, .pinf => true
  | .fin a, .fin b => a < b

/-- IEEE less-or-equal (<=): false whenever either side is NaN. -/
def ele (a b : Ext) : Bool := elt a b || eeq a b

/-- IEEE strict greater-than (>). -/
def egt (a b : Ext) : Bool := elt b a

/-- IEEE greater-or-equal (>=). -/
def ege (a b : Ext) : Bool := ele b a

/-- IEEE negation. -/
def eneg : Ext → Ext
  | .nan => .nan
  | .pinf => .ninf
  | .ninf => .pinf
  | .fin q => .fin (-q)

/-- IEEE addition: NaN propagates, +inf + -inf = NaN. -/
def eadd : Ext → Ext → Ext
  | .nan, _ => .nan
  | _, .nan => .nan
  | .pinf, .ninf => .nan
  | .ninf, .pinf => .nan
  | .pinf, _ => .pinf
  | _, .pinf => .pinf
  | .ninf, _ => .ninf
  | _, .ninf => .ninf
  | .fin a, .fin b => .fin (a + b)

/-- IEEE subtraction, a - b = a + (-b) (exact in IEEE). -/
def esub (a b : Ext) : Ext := eadd a (eneg b)

/-- IEEE multiplication: NaN propagates, inf * 0 = NaN. -/
def emul : Ext → Ext → Ext
  | .nan, _ => .nan
  | _, .nan => .nan
  | .pinf, .pinf => .pinf
  | .pinf, .ninf => .ninf
  | .ninf, .pinf => .ninf
  | .ninf, .ninf => .pinf
  | .pinf, .fin q => if 0 < q then .pinf else if q < 0 then .ninf else .nan
  | .fin q, .pinf => if 0 < q then .pinf else if q < 0 then .ninf else .nan
  | .ninf, .fin q => if 0 < q then .ninf else if q < 0 then .pinf else .nan
  | .fin q, .ninf => if 0 < q then .ninf else if q < 0 then .pinf else .nan
  | .fin a, .fin b => .fin (a * b)

/-- IEEE division: inf/inf = NaN, x/0 = signed infinity (or NaN for 0/0),
x/inf = 0. The zero here is unsigned (signed zeros are not modelled). -/
def ediv : Ext → Ext → Ext
  | .nan, _ => .nan
  | _, .nan => .nan
  | .pinf, .pinf => .nan
  | .pinf, .ninf => .nan
  | .ninf, .pinf => .nan
  | .ninf, .ninf => .nan
  | .pinf, .fin q => if 0 ≤ q then .pinf else .ninf
  | .ninf, .fin q => if 0 ≤ q then .ninf else .pinf
  | .fin _, .pinf => .fin 0
  | .fin _, .ninf => .fin 0
  | .fin a, .fin b =>
    if b = 0 then (if a = 0 then .nan else if 0 < a then .pinf else .ninf)
    else .fin (a / b)

/-- Rust f64::min: ignores a NaN argument and returns the other one. -/
def eminF (a b : Ext) : Ext :=
  if a.isNan then b else if b.isNan then a else if ele a b then a else b

/-- Rust f64::max: ignores a NaN argument and returns the other one. -/
def emaxF (a b : Ext) : Ext :=
  if a.isNan then b else if b.isNan then a else if ege a b then a else b

/-- f64::floor on the model. -/
def efloor : Ext → Ext
  | .nan => .nan
  | .pinf => .pinf
  | .ninf => .ninf
  | .fin q => .fin (⌊q⌋ : ℤ)

/-- Round half away from zero on ℚ (the semantics of Rust f64::round). -/
def roundHalfAway (q : ℚ) : ℤ :=
  if 0 ≤ q then ⌊q + 1/2⌋ else -⌊-q + 1/2⌋

/-- f64::round on the model (half away from zero). -/
def eround : Ext → Ext
  | .nan => .nan
  | .pinf => .pinf
  | .ninf => .ninf
  | .fin q => .fin (roundHalfAway q)

/-- f64::powi(10.0, z), modelled exactly as the rational power 10^z. -/
def qpow10 (z : ℤ) : ℚ := (10 : ℚ) ^ z

/-- Rust saturating float-to-u8 cast (`as u8`): NaN goes to 0, values are clamped. -/
def castU8 : Ext → ℕ
  | .nan => 0
  | .pinf => 255
  | .ninf => 0
  | .fin q => if q < 0 then 0 else min 255 (⌊q⌋).toNat

/-- The error enum of the library (src/plt: PltError), restricted to the fields the
claims use. -/
inductive PltError where
  | invalidData (msg : String) : PltError
  | invalidIndex (index nrows ncols : ℕ) : PltError
  | badTickPlacement (msg : String) : PltError
  | badTickLabels (msg : String) : PltError
deriving DecidableEq

/-- The first loop of sigdigit (figure.rs lines 183-188): while num >= 10.0,
num /= 10.0 and the result is incremented.  Fueled: `none` means the source loop has
not returned after `fuel` iterations. -/
def sigdigitUp : ℕ → Ext → ℤ → Option ℤ
  | 0, _, _ => none
  | fuel + 1, num, ret =>
    if ege num (.fin 10) then sigdigitUp fuel (ediv num (.fin 10)) (ret + 1)
    else some ret

/-- The second loop of sigdigit (figure.rs lines 190-195): while num < 1.0,
num *= 10.0 and the result is decremented. -/
def sigdigitDown : ℕ → Ext → ℤ → Option ℤ
  | 0, _, _ => none
  | fuel + 1, num, ret =>
    if elt num (.fin 1) then sigdigitDown fuel (emul num (.fin 10)) (ret - 1)
    else some ret

/-- sigdigit (figure.rs lines 177-197): base-10 exponent of the most significant digit,
with sentinel i32::MIN for 0.  The two while loops run on the given fuel. -/
def sigdigit (fuel : ℕ) (num : Ext) : Option ℤ :=
  if eeq num (.fin 0) then some (-2147483648)
  else if egt num (.fin 1) then sigdigitUp fuel num 0
  else sigdigitDown fuel num 0

/-- decimals (figure.rs lines 199-208): the first `ndigits` decimal digits of num,
extracted by repeated fractional-part extraction and scaling. -/
def decimals : Ext → ℕ → List ℕ
  | _, 0 => []
  | num, ndigits + 1 =>
    let frac := esub num (efloor num)
    let scaled := emul frac (.fin 10)
    castU8 (efloor scaled) :: decimals scaled ndigits

/-- round_to (figure.rs lines 210-212): (num * 10^place).round() / 10^place. -/
def roundTo (num : Ext) (place : ℤ) : Ext :=
  ediv (eround (emul num (.fin (qpow10 place)))) (.fin (qpow10 place))

/-- Vec::rposition: index of the last element satisfying the predicate. -/
def rposition (p : ℕ → Bool) (l : List ℕ) : Option ℕ :=
  match l.reverse.findIdx? p with
  | some j => some (l.length - 1 - j)
  | none => none

/-- The shift applied to each tick when a multiplier is displayed
(figure.rs lines 291-300 and 341-350): round(tick * 10^(3-multiplier)) * 10^(-3). -/
def shiftTick (multiplier : ℤ) (t : Ext) : Ext :=
  emul (eround (emul t (.fin (qpow10 (3 - multiplier))))) (.fin (qpow10 (-3)))

/-- tick_modifiers (figure.rs lines 242-317).  Returns (offset, multiplier, precision).
Fueled because of the sigdigit loops; `none` also covers the `.unwrap()` panic on a
single-element tick list (empty `difs`). -/
def tickModifiers (fuel : ℕ) (ticks : List Ext) : Option (Except PltError (Ext × ℤ × ℕ)) :=
  if ticks.any Ext.isNan then some (.error (.badTickPlacement "tick is NaN"))
  else if ticks.isEmpty then some (.ok (.fin 0, 0, 0))
  else
    match sigdigit fuel (ticks.getLast?.getD (.fin 0)) with
    | none => none
    | some maxMult0 =>
      let difs := List.zipWith (fun a b => esub b a) ticks ticks.tail
      match difs with
      | [] => none
      | d0 :: drest =>
        let maxDif := drest.foldl (fun mx d => if egt d mx then d else mx) d0
        let difMultO : Option ℤ :=
          if !(eeq maxDif (.fin 0)) then sigdigit fuel maxDif else some maxMult0
        match difMultO with
        | none => none
        | some difMult =>
          let offset := if difMult < maxMult0 - 3 then ticks.head?.getD (.fin 0) else .fin 0
          match sigdigit fuel
              (roundTo (esub (ticks.getLast?.getD (.fin 0)) offset) (3 - difMult)) with
          | none => none
          | some maxMult1 =>
            let multiplier : ℤ := if ¬(-2 ≤ maxMult1 ∧ maxMult1 ≤ 3) then maxMult1 else 0
            let maxPrecision : ℤ :=
              if multiplier ≠ 0 ∨ maxMult1 < 0 then 3 else 3 - maxMult1
            let shifted :=
              if multiplier ≠ 0 then ticks.map (shiftTick multiplier) else ticks
            let precisions := shifted.map (fun t =>
              match rposition (fun digit => digit ≠ 0) (decimals t maxPrecision.toNat) with
              | some prec => prec + 1
              | none => 0)
            some (.ok (offset, multiplier, precisions.foldl Nat.max 0))

/-- Stable insertion of an element into a list sorted by `ele`; used to model
`sort_by(partial_cmp.unwrap())`, which is only reached on NaN-free input, where `ele`
is a total order. -/
def insertAsc (x : Ext) : List Ext → List Ext
  | [] => [x]
  | y :: ys => if ele x y then x :: y :: ys else y :: insertAsc x ys

/-- Ascending sort of a NaN-free tick list (figure.rs lines 333-334). -/
def sortAsc (l : List Ext) : List Ext := l.foldr insertAsc []

/-- Round half to even on ℚ: the rounding Rust's fixed-precision formatting
(`format!("{:.p}", x)`) applies at the cut digit. -/
def roundHalfEven (q : ℚ) : ℤ :=
  let f := ⌊q⌋
  let r := q - f
  if r < 1/2 then f else if 1/2 < r then f + 1 else if Even f then f else f + 1

/-- Left-pad a digit string with zeros to the given length. -/
def padZeros (s : String) (len : ℕ) : String :=
  String.mk (List.replicate (len - s.length) '0') ++ s

/-- Rust `format!("{0:.1$}", x, prec)`: fixed-point with exactly `prec` decimals. -/
def formatFixed (x : Ext) (prec : ℕ) : String :=
  match x with
  | .nan => "NaN"
  | .pinf => "inf"
  | .ninf => "-inf"
  | .fin q =>
    let n : ℤ := roundHalfEven (q * (10 : ℚ) ^ prec)
    let sign : String := if n < 0 ∨ (n = 0 ∧ q < 0) then "-" else ""
    let m := n.natAbs
    if prec = 0 then sign ++ Nat.repr m
    else sign ++ Nat.repr (m / 10 ^ prec) ++ "." ++ padZeros (Nat.repr (m % 10 ^ prec)) prec

/-- ticks_to_labels (figure.rs lines 319-359): sort, subtract offset, round to
(4 - multiplier) places, shift by the multiplier, format with fixed precision. -/
def ticksToLabels (ticks : List Ext) (modifiers : Ext × ℤ × ℕ) :
    Except PltError (List String) :=
  if ticks.any Ext.isNan then .error (.badTickPlacement "tick is NaN")
  else if ticks.isEmpty then .ok []
  else
    let offset := modifiers.1
    let multiplier := modifiers.2.1
    let precision := modifiers.2.2
    let aligned := (sortAsc ticks).map (fun t => roundTo (esub t offset) (4 - multiplier))
    let shifted :=
      if multiplier ≠ 0 then aligned.map (shiftTick multiplier) else aligned
    .ok (shifted.map (fun t => formatFixed t precision))

/-! Model of src/plt/src/subplot.rs: axes, series data, and registration. -/

/-- The four axis roles (subplot.rs AxisType), iterated in the order
[X, Y, SecondaryX, SecondaryY]. -/
inductive AxisType where
  | x | y | secondaryX | secondaryY
deriving DecidableEq

/-- subplot.rs TickSpacing. -/
inductive TickSpacing where
  | on
  | auto
  | none
  | count (n : ℕ)
  | manual (ticks : List Ext)
deriving DecidableEq

/-- subplot.rs TickLabels. -/
inductive TickLabels where
  | on
  | auto
  | none
  | manual (labels : List String)
deriving DecidableEq

/-- subplot.rs Grid. -/
inductive Grid where
  | major | full | none
deriving DecidableEq

/-- subplot.rs Limits. -/
inductive Limits where
  | auto
  | manual (min max : Ext)
deriving DecidableEq

/-- An RGBA color; component values are opaque to all claims. -/
structure Color where
  r : ℚ
  g : ℚ
  b : ℚ
  a : ℚ
deriving DecidableEq

/-- subplot.rs LineStyle. -/
inductive LineStyle where
  | solid | dashed | shortDashed
deriving DecidableEq

/-- subplot.rs MarkerStyle. -/
inductive MarkerStyle where
  | circle | square
deriving DecidableEq

/-- subplot.rs Line (plot line format). -/
structure Line where
  style : LineStyle
  width : ℕ
  colorOverride : Option Color
deriving DecidableEq

/-- Line::default(). -/
def Line.default : Line := { style := .solid, width := 3, colorOverride := Option.none }

/-- subplot.rs Marker. -/
structure Marker where
  style : MarkerStyle
  size : ℕ
  colorOverride : Option Color
  outline : Bool
  outlineFormat : Line
deriving DecidableEq

/-- Marker::default(). -/
def Marker.default : Marker :=
  { style := .circle, size := 3, colorOverride := Option.none, outline := false,
    outlineFormat := { Line.default with width := 2 } }

/-- subplot.rs AxisBuf (AxisDescriptor<String>). -/
structure AxisBuf where
  label : String
  majorTickMarks : TickSpacing
  majorTickLabels : TickLabels
  minorTickMarks : TickSpacing
  minorTickLabels : TickLabels
  grid : Grid
  limitPolicy : Limits
  limits : Option (Ext × Ext)
  span : Option (Ext × Ext)
  visible : Bool
deriving DecidableEq

/-- The series-data variants behind the SeriesData trait objects: a point series
(PlotData / PlotDataOwned) or a step series (StepData / StepDataOwned). -/
inductive SeriesData where
  | plotData (xdata ydata : List Ext)
  | stepData (edges ydata : List Ext)
deriving DecidableEq

/-- SeriesData::xmin: fold of f64::min over the x-values starting from +inf
(for a step series, over the edges). -/
def SeriesData.xmin : SeriesData → Ext
  | .plotData xdata _ => xdata.foldl eminF .pinf
  | .stepData edges _ => edges.foldl eminF .pinf

/-- SeriesData::xmax: fold of f64::max over the x-values starting from -inf. -/
def SeriesData.xmax : SeriesData → Ext
  | .plotData xdata _ => xdata.foldl emaxF .ninf
  | .stepData edges _ => edges.foldl emaxF .ninf

/-- SeriesData::ymin. -/
def SeriesData.ymin : SeriesData → Ext
  | .plotData _ ydata => ydata.foldl eminF .pinf
  | .stepData _ ydata => ydata.foldl eminF .pinf

/-- SeriesData::ymax. -/
def SeriesData.ymax : SeriesData → Ext
  | .plotData _ ydata => ydata.foldl emaxF .ninf
  | .stepData _ ydata => ydata.foldl emaxF .ninf

/-- The fill-between data variant (FillBetweenData / FillBetweenDataOwned). -/
structure FillData where
  xdata : List Ext
  y1data : List Ext
  y2data : List Ext
deriving DecidableEq

/-- FillData::xmin. -/
def FillData.xmin (d : FillData) : Ext := d.xdata.foldl eminF .pinf

/-- FillData::xmax. -/
def FillData.xmax (d : FillData) : Ext := d.xdata.foldl emaxF .ninf

/-- FillData::ymin: min of the two per-curve folds. -/
def FillData.ymin (d : FillData) : Ext :=
  eminF (d.y1data.foldl eminF .pinf) (d.y2data.foldl eminF .pinf)

/-- FillData::ymax. -/
def FillData.ymax (d : FillData) : Ext :=
  emaxF (d.y1data.foldl emaxF .ninf) (d.y2data.foldl emaxF .ninf)

/-- subplot.rs PlotInfo. -/
structure PlotInfo where
  label : String
  data : SeriesData
  line : Option Line
  marker : Option Marker
  xaxis : AxisType
  yaxis : AxisType
  pixelPerfect : Bool
deriving DecidableEq

/-- subplot.rs FillInfo. -/
structure FillInfo where
  label : String
  data : FillData
  colorOverride : Option Color
  xaxis : AxisType
  yaxis : AxisType
deriving DecidableEq

/-- subplot.rs PlotType. -/
inductive PlotType where
  | series | fill
deriving DecidableEq

/-- subplot.rs Subplot.  The SubplotFormat field is omitted: registration
(plot_desc / fill_between_desc) neither reads nor writes it. -/
structure Subplot where
  plotOrder : List PlotType
  plotInfos : List PlotInfo
  fillInfos : List FillInfo
  title : String
  xaxis : AxisBuf
  yaxis : AxisBuf
  secondaryXaxis : AxisBuf
  secondaryYaxis : AxisBuf
deriving DecidableEq

/-- The default AxisDescriptor of SubplotDescriptor::default() (subplot.rs
lines 931-942). -/
def defaultAxis : AxisBuf :=
  { label := "", majorTickMarks := .on, majorTickLabels := .auto,
    minorTickMarks := .on, minorTickLabels := .none, grid := .none,
    limitPolicy := .auto, limits := Option.none, span := Option.none, visible := true }

/-- Subplot::new applied to SubplotDescriptor::default(). -/
def defaultSubplot : Subplot :=
  { plotOrder := [], plotInfos := [], fillInfos := [], title := "",
    xaxis := defaultAxis, yaxis := defaultAxis,
    secondaryXaxis := defaultAxis, secondaryYaxis := defaultAxis }

/-- subplot.rs PlotDescriptor. -/
structure PlotDescriptor where
  label : String
  line : Bool
  marker : Bool
  lineFormat : Line
  markerFormat : Marker
  xaxis : AxisType
  yaxis : AxisType
  pixelPerfect : Bool
deriving DecidableEq

/-- PlotDescriptor::default(). -/
def PlotDescriptor.default : PlotDescriptor :=
  { label := "", line := true, marker := false, lineFormat := Line.default,
    markerFormat := Marker.default, xaxis := .x, yaxis := .y, pixelPerfect := false }

/-- subplot.rs FillDescriptor. -/
structure FillDescriptor where
  label : String
  colorOverride : Option Color
  xaxis : AxisType
  yaxis : AxisType
deriving DecidableEq

/-- FillDescriptor::default(). -/
def FillDescriptor.default : FillDescriptor :=
  { label := "", colorOverride := Option.none, xaxis := .x, yaxis := .y }

/-- Read the axis of a subplot selected by role (the match in plot_desc). -/
def Subplot.getAxis (sp : Subplot) : AxisType → AxisBuf
  | .x => sp.xaxis
  | .y => sp.yaxis
  | .secondaryX => sp.secondaryXaxis
  | .secondaryY => sp.secondaryYaxis

/-- Write the axis of a subplot selected by role. -/
def Subplot.setAxis (sp : Subplot) : AxisType → AxisBuf → Subplot
  | .x, ax => { sp with xaxis := ax }
  | .y, ax => { sp with yaxis := ax }
  | .secondaryX, ax => { sp with secondaryXaxis := ax }
  | .secondaryY, ax => { sp with secondaryYaxis := ax }

/-- The per-axis span/limit growth performed by plot_desc and fill_between_desc
(subplot.rs lines 185-200 and duplicates): under the Auto limit policy the span is
unioned with the new data extent and the limits are recomputed as the span widened on
each side by 5% of the extent; under Manual limits nothing changes. -/
def registerOnAxis (ax : AxisBuf) (dmin dmax : Ext) : AxisBuf :=
  match ax.limitPolicy with
  | .auto =>
    let sp := match ax.span with
      | some (a, b) => (eminF a dmin, emaxF b dmax)
      | Option.none => (dmin, dmax)
    let extent := esub sp.2 sp.1
    { ax with
      span := some sp,
      limits := some (esub sp.1 (emul (.fin (1/20)) extent),
                      eadd sp.2 (emul (.fin (1/20)) extent)) }
  | .manual _ _ => ax

/-- plot_desc (subplot.rs lines 163-235): grow the two referenced axes, then append
the plot entry and its order tag. -/
def Subplot.plotDesc (sp : Subplot) (desc : PlotDescriptor) (data : SeriesData) :
    Subplot :=
  let line := if desc.line then some desc.lineFormat else Option.none
  let marker := if desc.marker then some desc.markerFormat else Option.none
  let sp1 := sp.setAxis desc.xaxis (registerOnAxis (sp.getAxis desc.xaxis) data.xmin data.xmax)
  let sp2 := sp1.setAxis desc.yaxis (registerOnAxis (sp1.getAxis desc.yaxis) data.ymin data.ymax)
  let info : PlotInfo :=
    { label := desc.label, data := data, line := line, marker := marker,
      xaxis := desc.xaxis, yaxis := desc.yaxis, pixelPerfect := desc.pixelPerfect }
  { sp2 with
    plotInfos := sp2.plotInfos ++ [info],
    plotOrder := sp2.plotOrder ++ [.series] }

/-- fill_between_desc (subplot.rs lines 238-297). -/
def Subplot.fillBetweenDesc (sp : Subplot) (desc : FillDescriptor) (data : FillData) :
    Subplot :=
  let sp1 := sp.setAxis desc.xaxis (registerOnAxis (sp.getAxis desc.xaxis) data.xmin data.xmax)
  let sp2 := sp1.setAxis desc.yaxis (registerOnAxis (sp1.getAxis desc.yaxis) data.ymin data.ymax)
  let info : FillInfo :=
    { label := desc.label, data := data, colorOverride := desc.colorOverride,
      xaxis := desc.xaxis, yaxis := desc.yaxis }
  { sp2 with
    fillInfos := sp2.fillInfos ++ [info],
    plotOrder := sp2.plotOrder ++ [.fill] }

/-- Plotter::plot with the default descriptor (subplot.rs lines 599-622), as a state
transformer: on a validation error the subplot is returned untouched together with the
error; on success the updated subplot is returned. -/
def Subplot.plot (sp : Subplot) (xs ys : List Ext) : Subplot × Option PltError :=
  if xs.length ≠ ys.length then
    (sp, some (.invalidData
      "Data is not correctly sized. x-data and y-data should be same length"))
  else if xs.any Ext.isNan then (sp, some (.invalidData "x-data has NaN value"))
  else if ys.any Ext.isNan then (sp, some (.invalidData "y-data has NaN value"))
  else (sp.plotDesc PlotDescriptor.default (.plotData xs ys), Option.none)

/-- Plotter::step with the default descriptor (subplot.rs lines 651-676); on success
pixel_perfect is set before registration. -/
def Subplot.step (sp : Subplot) (steps ys : List Ext) : Subplot × Option PltError :=
  if steps.length ≠ ys.length + 1 then
    (sp, some (.invalidData
      "Data is not correctly sized. There should be one more step than y-value"))
  else if steps.any Ext.isNan then (sp, some (.invalidData "step-data has NaN value"))
  else if ys.any Ext.isNan then (sp, some (.invalidData "y-data has NaN value"))
  else (sp.plotDesc { PlotDescriptor.default with pixelPerfect := true }
          (.stepData steps ys), Option.none)

/-- Filler::fill_between with the default descriptor (subplot.rs lines 822-837):
the source performs no validation at all before registering the data. -/
def Subplot.fillBetween (sp : Subplot) (xs y1s y2s : List Ext) :
    Subplot × Option PltError :=
  (sp.fillBetweenDesc FillDescriptor.default
    { xdata := xs, y1data := y1s, y2data := y2s }, Option.none)

/-! Model of src/plt/src/figure.rs: tick planning, tick-label resolution,
layout, and figure construction. -/

/-- u32 wrap. -/
def w32 (a : ℕ) : ℕ := a % 4294967296

/-- u32 wrapping addition (release-profile semantics). -/
def add32 (a b : ℕ) : ℕ := (a + b) % 4294967296

/-- u32 wrapping subtraction. -/
def sub32 (a b : ℕ) : ℕ := (a % 4294967296 + (4294967296 - b % 4294967296)) % 4294967296

/-- u32 wrapping multiplication. -/
def mul32 (a b : ℕ) : ℕ := (a * b) % 4294967296

/-- A pixel rectangle (the draw::Area used by figure.rs), coordinates in u32. -/
structure Area where
  xmin : ℕ
  xmax : ℕ
  ymin : ℕ
  ymax : ℕ
deriving DecidableEq

/-- Rectangle containment, componentwise. -/
def Area.containedIn (inner outer : Area) : Prop :=
  outer.xmin ≤ inner.xmin ∧ inner.xmax ≤ outer.xmax ∧
  outer.ymin ≤ inner.ymin ∧ inner.ymax ≤ outer.ymax

instance (inner outer : Area) : Decidable (inner.containedIn outer) := by
  unfold Area.containedIn
  infer_instance

/-- subplot.rs TickDirection. -/
inductive TickDirection where
  | inner | outer | both
deriving DecidableEq

/-- Major tick locations (figure.rs lines 548-564): a manual list is used as is,
otherwise Count(n) and Auto (n = 5) place n evenly spaced ticks over the span and
every other policy places none.  The division (n as f64 / (nticks - 1) as f64) follows
IEEE semantics, so a count of 1 produces the single tick 0/0 = NaN. -/
def majorTicksOf (spacing : TickSpacing) (span : Ext × Ext) : List Ext :=
  match spacing with
  | .manual ticks => ticks
  | sp =>
    let nticks : ℕ := match sp with
      | .count n => n
      | .auto => 5
      | _ => 0
    (List.range nticks).map (fun n : ℕ =>
      eadd span.1 (emul (esub span.2 span.1)
        (ediv (.fin (n : ℚ)) (.fin ((nticks - 1 : ℕ) : ℚ)))))

/-- Minor tick locations before overlap removal (figure.rs lines 566-582): as for
major ticks, but the Auto count is 5 * major_ticks.len() computed in u16 arithmetic
(`5 * major_ticks.len() as u16`), which wraps mod 2^16. -/
def minorTicksRaw (spacing : TickSpacing) (majorLen : ℕ) (span : Ext × Ext) :
    List Ext :=
  match spacing with
  | .manual ticks => ticks
  | sp =>
    let nticks : ℕ := match sp with
      | .count n => n
      | .auto => 5 * (majorLen % 65536) % 65536
      | _ => 0
    (List.range nticks).map (fun n : ℕ =>
      eadd span.1 (emul (esub span.2 span.1)
        (ediv (.fin (n : ℚ)) (.fin ((nticks - 1 : ℕ) : ℚ)))))

/-- Overlap removal (figure.rs lines 584-587): minor ticks that compare IEEE-equal to
some major tick are dropped. -/
def removeOverlap (majorTicks minorTicks : List Ext) : List Ext :=
  minorTicks.filter (fun tick => !(majorTicks.any (fun m => eeq m tick)))

/-- Modelled from the spec: "For a count n, major ticks are placed at
min + (max-min)*i/(n-1) for i in 0..n (using the axis's data span/limits)" -- the
formula of section 4.2, written independently for comparison with majorTicksOf. -/
def specCountTicks (n : ℕ) (span : Ext × Ext) : List Ext :=
  (List.range n).map (fun i : ℕ =>
    eadd span.1 (emul (esub span.2 span.1)
      (ediv (.fin (i : ℚ)) (.fin ((n - 1 : ℕ) : ℚ)))))

/-- The tick-labels policy as matched by figure.rs (lines 590-606): its Manual variant
carries labels together with a multiplier and an offset.  (This is the figure.rs
version of the enum; the subplot.rs file in this tree is from a different revision
whose Manual variant carries only the labels.) -/
inductive TickLabelsFig where
  | on
  | auto
  | none
  | manual (labels : List String) (multiplier : ℤ) (offset : Ext)
deriving DecidableEq

/-- Major tick labels, multiplier and offset for one axis (figure.rs lines 590-598):
a manual override is passed through unchecked; otherwise tick_modifiers and
ticks_to_labels derive them.  Fueled through tick_modifiers. -/
def majorLabelsOf (fuel : ℕ) (policy : TickLabelsFig) (majorTicks : List Ext) :
    Option (Except PltError (List String × ℤ × Ext)) :=
  match policy with
  | .manual labels multiplier offset => some (.ok (labels, multiplier, offset))
  | _ =>
    match tickModifiers fuel majorTicks with
    | Option.none => Option.none
    | some (.error e) => some (.error e)
    | some (.ok mods) =>
      match ticksToLabels majorTicks mods with
      | .error e => some (.error e)
      | .ok labels => some (.ok (labels, mods.2.1, mods.1))

/-- The axis-role names used in the BadTickLabels message (figure.rs lines 1118-1124). -/
def axisRoleName : AxisType → String
  | .y => "y-axis"
  | .x => "x-axis"
  | .secondaryY => "secondary y-axis"
  | .secondaryX => "secondary x-axis"

/-- The tick-label check of the draw loop (figure.rs lines 1116-1131): an empty label
list is replaced by one empty string per tick; a non-empty list whose length differs
from the tick count aborts the render with BadTickLabels naming the axis role;
otherwise the labels are used as given. -/
def resolveTickLabels (placement : AxisType) (ticks : List Ext)
    (labels : List String) : Except PltError (List String) :=
  if labels.isEmpty then .ok (List.replicate ticks.length "")
  else if labels.length ≠ ticks.length then
    .error (.badTickLabels
      ("number of tick labels does not match number of ticks on " ++
        axisRoleName placement))
  else .ok labels

/-! The layout pass of draw_subplot (figure.rs lines 367-740).  The glyph metrics
(letter width and height) come from the backend text-size query; `bufferOffset`
stands for the derived quantity (letter_size.height as f64 * 0.6) as u32 and is kept
as a parameter so that the float multiplication need not be modelled.  Per axis the
layout consumes only the data captured in `LayoutAxisIn`. -/

/-- The per-axis facts consumed by the buffer computation: emptiness of the four
finalized tick/label lists, whether multiplier != 0 or offset != 0.0 holds for the
axis, and whether the axis label is non-empty. -/
structure LayoutAxisIn where
  hasMajorTicks : Bool
  hasMinorTicks : Bool
  hasMajorLabels : Bool
  hasMinorLabels : Bool
  modifierPresent : Bool
  labelNonempty : Bool
deriving DecidableEq

/-- The inputs of the layout pass: the subplot area handed in by the figure, the
glyph metrics, tick formatting, the four per-axis inputs and the title flag. -/
structure LayoutIn where
  area : Area
  letterW : ℕ
  letterH : ℕ
  bufferOffset : ℕ
  tickDirection : TickDirection
  tickLength : ℕ
  overrideMinorTickLength : Option ℕ
  scalingRound : ℕ
  axX : LayoutAxisIn
  axY : LayoutAxisIn
  axSX : LayoutAxisIn
  axSY : LayoutAxisIn
  titleNonempty : Bool
deriving DecidableEq

/-- Per-role selector for the layout inputs. -/
def LayoutIn.ax (cfg : LayoutIn) : AxisType → LayoutAxisIn
  | .x => cfg.axX
  | .y => cfg.axY
  | .secondaryX => cfg.axSX
  | .secondaryY => cfg.axSY

/-- outer_major_tick_length (figure.rs lines 390-395). -/
def outerMajorTickLength (cfg : LayoutIn) : ℕ :=
  match cfg.tickDirection with
  | .outer | .both => mul32 cfg.tickLength cfg.scalingRound
  | .inner => 0

/-- outer_minor_tick_length (figure.rs lines 407-416): the explicit override scaled,
or half the major length. -/
def outerMinorTickLength (cfg : LayoutIn) : ℕ :=
  match cfg.tickDirection with
  | .outer | .both =>
    match cfg.overrideMinorTickLength with
    | some len => mul32 len cfg.scalingRound
    | Option.none => mul32 cfg.tickLength cfg.scalingRound / 2
  | .inner => 0

/-- tick_buffer for one role (figure.rs lines 617-621 and 634/645): space for outer
tick marks, plus one buffer_offset when any tick labels exist. -/
def tickBuffer (cfg : LayoutIn) (p : AxisType) : ℕ :=
  add32
    (if (cfg.ax p).hasMajorTicks then outerMajorTickLength cfg
     else if (cfg.ax p).hasMinorTicks then outerMinorTickLength cfg
     else 0)
    (if (cfg.ax p).hasMajorLabels || (cfg.ax p).hasMinorLabels then w32 cfg.bufferOffset
     else 0)

/-- The tick-label extent for one role (figure.rs lines 625-632): five letter widths
for the vertical axes, one letter height for the horizontal ones. -/
def tickLabelSize (cfg : LayoutIn) (p : AxisType) : ℕ :=
  match p with
  | .y | .secondaryY => mul32 5 cfg.letterW
  | .x | .secondaryX => w32 cfg.letterH

/-- modifier_buffer for one role: the tick-label extent accrues here
(figure.rs lines 633/644), and a primary-axis scale annotation adds
letter_height * 2 / 3 to SecondaryX (for the Y annotation) or to X (for the X
annotation) (figure.rs lines 649-661). -/
def modifierBuffer (cfg : LayoutIn) (p : AxisType) : ℕ :=
  add32
    (if (cfg.ax p).hasMajorLabels || (cfg.ax p).hasMinorLabels then tickLabelSize cfg p
     else 0)
    (if p = .secondaryX ∧ cfg.axY.modifierPresent = true then mul32 cfg.letterH 2 / 3
     else if p = .x ∧ cfg.axX.modifierPresent = true then mul32 cfg.letterH 2 / 3
     else 0)

/-- tick_label_buffer for one role: one buffer_offset from a primary-axis scale
annotation (figure.rs lines 653/657) and one from a non-empty axis label
(figure.rs line 667). -/
def tickLabelBuffer (cfg : LayoutIn) (p : AxisType) : ℕ :=
  add32
    (if p = .secondaryX ∧ cfg.axY.modifierPresent = true then w32 cfg.bufferOffset
     else if p = .x ∧ cfg.axX.modifierPresent = true then w32 cfg.bufferOffset
     else 0)
    (if (cfg.ax p).labelNonempty then w32 cfg.bufferOffset else 0)

/-- label_buffer before the title contribution (figure.rs line 666): one letter
height for a non-empty axis label. -/
def labelBufferPre (cfg : LayoutIn) (p : AxisType) : ℕ :=
  if (cfg.ax p).labelNonempty then w32 cfg.letterH else 0

/-- subplot_buffer for one role (figure.rs lines 671-678): if the four accumulated
buffers total less than two letter widths, a flat three-letter-width buffer,
otherwise buffer_offset.  (The source computes this at the end of each role's loop
iteration; by then every contribution to that role's four buffers has been made, and
the title contribution to label_buffer only happens after the loop.) -/
def subplotBuffer (cfg : LayoutIn) (p : AxisType) : ℕ :=
  if add32 (add32 (add32 (tickBuffer cfg p) (tickLabelBuffer cfg p))
      (modifierBuffer cfg p)) (labelBufferPre cfg p) < mul32 cfg.letterW 2 then
    mul32 cfg.letterW 3
  else w32 cfg.bufferOffset

/-- label_buffer after the title contribution (figure.rs lines 700-703): a non-empty
title adds buffer_offset to the SecondaryX label buffer. -/
def labelBuffer (cfg : LayoutIn) (p : AxisType) : ℕ :=
  add32 (labelBufferPre cfg p)
    (if p = .secondaryX ∧ cfg.titleNonempty = true then w32 cfg.bufferOffset else 0)

/-- title_buffer (figure.rs lines 699-703). -/
def titleBuffer (cfg : LayoutIn) : ℕ :=
  if cfg.titleNonempty then w32 cfg.letterH else 0

/-- title_boundary (figure.rs line 707). -/
def titleBoundary (cfg : LayoutIn) : ℕ :=
  sub32 (sub32 (w32 cfg.area.ymax) (subplotBuffer cfg .secondaryX)) (titleBuffer cfg)

/-- label_boundary (figure.rs lines 709-714). -/
def labelBoundary (cfg : LayoutIn) : Area :=
  { xmin := add32 (add32 (w32 cfg.area.xmin) (subplotBuffer cfg .y)) (labelBuffer cfg .y),
    xmax := sub32 (sub32 (w32 cfg.area.xmax) (subplotBuffer cfg .secondaryY))
      (labelBuffer cfg .secondaryY),
    ymin := add32 (add32 (w32 cfg.area.ymin) (subplotBuffer cfg .x)) (labelBuffer cfg .x),
    ymax := sub32 (titleBoundary cfg) (labelBuffer cfg .secondaryX) }

/-- modifier_boundary (figure.rs lines 715-720). -/
def modifierBoundary (cfg : LayoutIn) : Area :=
  { xmin := add32 (labelBoundary cfg).xmin (modifierBuffer cfg .y),
    xmax := sub32 (labelBoundary cfg).xmax (modifierBuffer cfg .secondaryY),
    ymin := add32 (labelBoundary cfg).ymin (modifierBuffer cfg .x),
    ymax := sub32 (labelBoundary cfg).ymax (modifierBuffer cfg .secondaryX) }

/-- tick_label_boundary (figure.rs lines 721-726). -/
def tickLabelBoundary (cfg : LayoutIn) : Area :=
  { xmin := add32 (modifierBoundary cfg).xmin (tickLabelBuffer cfg .y),
    xmax := sub32 (modifierBoundary cfg).xmax (tickLabelBuffer cfg .secondaryY),
    ymin := add32 (modifierBoundary cfg).ymin (tickLabelBuffer cfg .x),
    ymax := sub32 (modifierBoundary cfg).ymax (tickLabelBuffer cfg .secondaryX) }

/-- tick_boundary (figure.rs lines 727-732). -/
def tickBoundary (cfg : LayoutIn) : Area :=
  { xmin := add32 (tickLabelBoundary cfg).xmin (tickBuffer cfg .y),
    xmax := sub32 (tickLabelBoundary cfg).xmax (tickBuffer cfg .secondaryY),
    ymin := add32 (tickLabelBoundary cfg).ymin (tickBuffer cfg .x),
    ymax := sub32 (tickLabelBoundary cfg).ymax (tickBuffer cfg .secondaryX) }

/-- plot_area (figure.rs lines 735-740): a copy of tick_boundary. -/
def plotArea (cfg : LayoutIn) : Area := tickBoundary cfg

/-! Figure construction (figure.rs Figure::new and add_subplot). -/

/-- A pixel size (draw::Size). -/
structure Size where
  width : ℕ
  height : ℕ
deriving DecidableEq

/-- The figure descriptor: figsize in inches (an f32 pair) and dpi (u16). -/
structure FigureDescriptor where
  figsize0 : ℚ
  figsize1 : ℚ
  dpi : ℕ
deriving DecidableEq

/-- Rust saturating float-to-u32 cast. -/
def castU32 (q : ℚ) : ℕ :=
  if q < 0 then 0 else min 4294967295 (⌊q⌋).toNat

/-- The canvas size computed by Figure::new (figure.rs lines 47-49): both the width
and the height are (figsize.0 * dpi).floor() as u32 -- the second component of
figsize is not read. -/
def figureSize (desc : FigureDescriptor) : Size :=
  { width := castU32 (desc.figsize0 * desc.dpi),
    height := castU32 (desc.figsize0 * desc.dpi) }

/-- Rust ceil-then-cast (`.ceil() as u32`). -/
def castCeilU32 (q : ℚ) : ℕ :=
  if q < 0 then 0 else min 4294967295 (⌈q⌉).toNat

/-- The subplot-area computation of Figure::add_subplot (figure.rs lines 63-90):
index validation, then the grid cell rectangle derived from the canvas size. -/
def addSubplotArea (size : Size) (nrows ncols index : ℕ) : Except PltError Area :=
  if index > nrows * ncols ∨ index = 0 then
    .error (.invalidIndex index nrows ncols)
  else
    let row := (index - 1) / ncols
    let col := (index - 1) % ncols
    let xextent : ℚ := (size.width / ncols : ℕ)
    let yextent : ℚ := (size.height / nrows : ℕ)
    let xmin := castCeilU32 (xextent * col)
    let xmax := castU32 ((xmin : ℚ) + xextent)
    let ymin := castCeilU32 (yextent * ((nrows - 1 - row : ℕ) : ℚ))
    let ymax := castU32 ((ymin : ℚ) + yextent)
    .ok { xmin := xmin, xmax := xmax, ymin := ymin, ymax := ymax }

/-! Auxiliary predicates and concrete inputs used by the theorems below. -/

/-- Well-formed span: absent, the (+inf, -inf) state left by registering an empty
series, or a finite interval. -/
def SpanWF : Option (Ext × Ext) → Prop
  | Option.none => True
  | some (a, b) => (a = .pinf ∧ b = .ninf) ∨ ∃ qa qb : ℚ, a = .fin qa ∧ b = .fin qb ∧ qa ≤ qb

/-- The invariant span within limits for one axis, as the IEEE comparisons
limits.0 <= span.0 and span.1 <= limits.1 (false if either pair is absent). -/
def spanWithinLimits (ax : AxisBuf) : Bool :=
  match ax.span, ax.limits with
  | some s, some l => ele l.1 s.1 && ele s.2 l.2
  | _, _ => false

/-- A degenerate layout input: a zero-height subplot area (as produced by
add_subplot on a zero-height canvas) with a non-empty title. -/
def degenerateLayout : LayoutIn :=
  { area := { xmin := 0, xmax := 100, ymin := 0, ymax := 0 },
    letterW := 1, letterH := 10, bufferOffset := 6,
    tickDirection := .inner, tickLength := 8,
    overrideMinorTickLength := Option.none, scalingRound := 1,
    axX := { hasMajorTicks := false, hasMinorTicks := false, hasMajorLabels := false,
             hasMinorLabels := false, modifierPresent := false, labelNonempty := false },
    axY := { hasMajorTicks := false, hasMinorTicks := false, hasMajorLabels := false,
             hasMinorLabels := false, modifierPresent := false, labelNonempty := false },
    axSX := { hasMajorTicks := false, hasMinorTicks := false, hasMajorLabels := false,
              hasMinorLabels := false, modifierPresent := false, labelNonempty := false },
    axSY := { hasMajorTicks := false, hasMinorTicks := false, hasMajorLabels := false,
              hasMinorLabels := false, modifierPresent := false, labelNonempty := false },
    titleNonempty := true }

/-- A representative non-degenerate layout input: a 1000x1000 area, default-like
formatting, ticks and tick labels on every axis, a title. -/
def typicalLayout : LayoutIn :=
  { area := { xmin := 0, xmax := 1000, ymin := 0, ymax := 1000 },
    letterW := 10, letterH := 20, bufferOffset := 12,
    tickDirection := .inner, tickLength := 8,
    overrideMinorTickLength := Option.none, scalingRound := 1,
    axX := { hasMajorTicks := true, hasMinorTicks := true, hasMajorLabels := true,
             hasMinorLabels := false, modifierPresent := false, labelNonempty := true },
    axY := { hasMajorTicks := true, hasMinorTicks := true, hasMajorLabels := true,
             hasMinorLabels := false, modifierPresent := false, labelNonempty := true },
    axSX := { hasMajorTicks := true, hasMinorTicks := true, hasMajorLabels := true,
              hasMinorLabels := false, modifierPresent := false, labelNonempty := false },
    axSY := { hasMajorTicks := true, hasMinorTicks := true, hasMajorLabels := true,
              hasMinorLabels := false, modifierPresent := false, labelNonempty := false },
    titleNonempty := true }

/-! Theorems. -/

/-- C3: for the tick set [1000000, 1000001], tick_modifiers resolves
offset = 1000000 and multiplier = 0: the largest gap (1) has exponent 0, the
candidate multiplier from the largest tick is 6, and 0 < 6 - 3 forces the offset;
the multiplier recomputed from round_to(1000001 - 1000000, 3 - 0) has exponent 0,
which lies inside [-2, 3] and is therefore forced to 0.  The precision comes out 0. -/
theorem c3_tick_modifiers_offset :
    tickModifiers 30 [Ext.fin 1000000, Ext.fin 1000001] =
      some (.ok (.fin 1000000, 0, 0)) ∧
    sigdigit 30 (.fin 1000001) = some 6 ∧
    sigdigit 30 (.fin 1) = some 0 ∧
    (0 : ℤ) < 6 - 3 ∧
    sigdigit 30 (roundTo (esub (.fin 1000001) (.fin 1000000)) (3 - 0)) = some 0 ∧
    (-2 : ℤ) ≤ 0 ∧ (0 : ℤ) ≤ 3 := by
  refine ⟨?_, ?_, ?_, by norm_num, ?_, by norm_num, by norm_num⟩ <;>
  norm_num [tickModifiers, sigdigit, sigdigitUp, sigdigitDown, eeq, egt, ege, ele, elt,
    ediv, emul, eadd, esub, eneg, efloor, eround, roundTo, qpow10, roundHalfAway,
    decimals, castU8, rposition, shiftTick, Ext.isNan]

/-- C4: for the tick set [0, 10, 20, 30, 40, 50], tick_modifiers returns offset 0,
multiplier 0 and precision 0, and ticks_to_labels with those modifiers returns
exactly the labels "0" through "50". -/
theorem c4_default_labels :
    tickModifiers 30 [Ext.fin 0, .fin 10, .fin 20, .fin 30, .fin 40, .fin 50] =
      some (.ok (.fin 0, 0, 0)) ∧
    ticksToLabels [Ext.fin 0, .fin 10, .fin 20, .fin 30, .fin 40, .fin 50]
      (.fin 0, 0, 0) = .ok ["0", "10", "20", "30", "40", "50"] := by
  constructor
  · norm_num [tickModifiers, sigdigit, sigdigitUp, sigdigitDown, eeq, egt, ege, ele, elt,
      ediv, emul, eadd, esub, eneg, efloor, eround, roundTo, qpow10, roundHalfAway,
      decimals, castU8, rposition, shiftTick, Ext.isNan]
  · norm_num [ticksToLabels, sortAsc, insertAsc, eeq, egt, ege, ele, elt,
      ediv, emul, eadd, esub, eneg, efloor, eround, roundTo, qpow10, roundHalfAway,
      shiftTick, Ext.isNan, formatFixed, roundHalfEven, padZeros, Int.even_iff]
    decide

/-- Helper: when no tick is NaN, tick_modifiers can never return an error (its only
error site is the NaN check; everything later returns Ok or runs out of fuel). -/
theorem tickModifiers_no_error (fuel : ℕ) (ticks : List Ext)
    (h : ticks.any Ext.isNan = false) (e : PltError) :
    tickModifiers fuel ticks ≠ some (.error e) := by
  intro hcontra
  unfold tickModifiers at hcontra
  rw [h] at hcontra
  simp only [Bool.false_eq_true, if_false] at hcontra
  split at hcontra
  · simp at hcontra
  · split at hcontra
    · simp at hcontra
    · split at hcontra
      · simp at hcontra
      · split at hcontra
        · simp at hcontra
        · split at hcontra
          · simp at hcontra
          · simp at hcontra

/-- Helper: when no tick is NaN, ticks_to_labels never returns an error. -/
theorem ticksToLabels_no_error (ticks : List Ext) (mods : Ext × ℤ × ℕ)
    (h : ticks.any Ext.isNan = false) (e : PltError) :
    ticksToLabels ticks mods ≠ .error e := by
  intro hcontra
  unfold ticksToLabels at hcontra
  rw [h] at hcontra
  simp only [Bool.false_eq_true, if_false] at hcontra
  split at hcontra <;> simp at hcontra

/-- C8: tick_modifiers and ticks_to_labels return the BadTickPlacement error exactly
when some input tick is NaN (and then with the message "tick is NaN"); on the empty
tick list tick_modifiers returns Ok (0, 0, 0) and ticks_to_labels returns Ok []. -/
theorem c8_nan_error_iff (fuel : ℕ) (ticks : List Ext) (mods : Ext × ℤ × ℕ) :
    ((∃ e, tickModifiers fuel ticks = some (.error e)) ↔ ticks.any Ext.isNan = true) ∧
    (ticks.any Ext.isNan = true →
      tickModifiers fuel ticks = some (.error (.badTickPlacement "tick is NaN"))) ∧
    ((∃ e, ticksToLabels ticks mods = .error e) ↔ ticks.any Ext.isNan = true) ∧
    (ticks.any Ext.isNan = true →
      ticksToLabels ticks mods = .error (.badTickPlacement "tick is NaN")) ∧
    tickModifiers fuel [] = some (.ok (.fin 0, 0, 0)) ∧
    ticksToLabels [] mods = .ok [] := by
  have hTM : ticks.any Ext.isNan = true →
      tickModifiers fuel ticks = some (.error (.badTickPlacement "tick is NaN")) := by
    intro h
    unfold tickModifiers
    rw [h]
    simp
  have hTL : ticks.any Ext.isNan = true →
      ticksToLabels ticks mods = .error (.badTickPlacement "tick is NaN") := by
    intro h
    unfold ticksToLabels
    rw [h]
    simp
  refine ⟨⟨?_, fun h => ⟨_, hTM h⟩⟩, hTM, ⟨?_, fun h => ⟨_, hTL h⟩⟩, hTL, ?_, ?_⟩
  · rintro ⟨e, he⟩
    cases hh : ticks.any Ext.isNan with
    | true => rfl
    | false => exact absurd he (tickModifiers_no_error fuel ticks hh e)
  · rintro ⟨e, he⟩
    cases hh : ticks.any Ext.isNan with
    | true => rfl
    | false => exact absurd he (ticksToLabels_no_error ticks mods hh e)
  · simp [tickModifiers]
  · simp [ticksToLabels]

/-- C8 witness: both functions produce the BadTickPlacement error on the concrete
NaN-containing input [NaN]. -/
theorem c8_witness :
    tickModifiers 5 [Ext.nan] = some (.error (.badTickPlacement "tick is NaN")) ∧
    ticksToLabels [Ext.nan] (.fin 0, 0, 0) = .error (.badTickPlacement "tick is NaN") := by
  exact ⟨(c8_nan_error_iff 5 [Ext.nan] (.fin 0, 0, 0)).2.1 (by rfl),
    (c8_nan_error_iff 5 [Ext.nan] (.fin 0, 0, 0)).2.2.2.1 (by rfl)⟩

/-- Helper: the division loop never leaves +infinity, so it never returns. -/
theorem sigdigitUp_pinf_none (fuel : ℕ) (r : ℤ) : sigdigitUp fuel .pinf r = Option.none := by
  induction fuel generalizing r with
  | zero => rfl
  | succ n ih =>
    have hc : ege Ext.pinf (.fin 10) = true := by simp [ege, ele, elt, eeq]
    have hd : ediv Ext.pinf (.fin 10) = Ext.pinf := by norm_num [ediv]
    simp only [sigdigitUp, hc, if_true, hd]
    exact ih _

/-- Helper: the multiplication loop never leaves -infinity. -/
theorem sigdigitDown_ninf_none (fuel : ℕ) (r : ℤ) : sigdigitDown fuel .ninf r = Option.none := by
  induction fuel generalizing r with
  | zero => rfl
  | succ n ih =>
    have hc : elt Ext.ninf (.fin 1) = true := by simp [elt]
    have hm : emul Ext.ninf (.fin 10) = Ext.ninf := by norm_num [emul]
    simp only [sigdigitDown, hc, if_true, hm]
    exact ih _

/-- Helper: from a negative value the multiplication loop stays negative, hence
below 1, and never returns. -/
theorem sigdigitDown_neg_none (fuel : ℕ) (q : ℚ) (hq : q < 0) (r : ℤ) :
    sigdigitDown fuel (.fin q) r = Option.none := by
  induction fuel generalizing q r with
  | zero => rfl
  | succ n ih =>
    have hc : elt (Ext.fin q) (.fin 1) = true := by
      simp [elt, decide_eq_true_eq]
      linarith
    have hm : emul (Ext.fin q) (.fin 10) = Ext.fin (q * 10) := by norm_num [emul]
    simp only [sigdigitDown, hc, if_true, hm]
    exact ih (q * 10) (by linarith) _

/-- Helper: the division loop returns on positive input, by induction on the floor. -/
theorem sigdigitUp_terminates (n : ℕ) (q : ℚ) (hq : 0 < q) (hn : (⌊q⌋).toNat ≤ n)
    (r : ℤ) : ∃ fuel z, sigdigitUp fuel (.fin q) r = some z := by
  induction n generalizing q r with
  | zero =>
    have hq10 : q < 10 := by
      by_contra hge
      push_neg at hge
      have : (10 : ℤ) ≤ ⌊q⌋ := Int.le_floor.mpr (by exact_mod_cast hge)
      omega
    refine ⟨1, r, ?_⟩
    have hc : ege (Ext.fin q) (.fin 10) = false := by
      simp [ege, ele, elt, eeq, decide_eq_true_eq]
      constructor
      · linarith
      · intro h
        exact absurd h (by linarith)
    simp [sigdigitUp, hc]
  | succ m ih =>
    by_cases hq10 : q < 10
    · refine ⟨1, r, ?_⟩
      have hc : ege (Ext.fin q) (.fin 10) = false := by
        simp [ege, ele, elt, eeq, decide_eq_true_eq]
        constructor
        · linarith
        · intro h
          exact absurd h (by linarith)
      simp [sigdigitUp, hc]
    · push_neg at hq10
      have hfq : (10 : ℤ) ≤ ⌊q⌋ := Int.le_floor.mpr (by exact_mod_cast hq10)
      have hstep : ⌊q / 10⌋ ≤ ⌊q⌋ - 9 := by
        have h1 : q / 10 ≤ q - 9 := by linarith
        calc ⌊q / 10⌋ ≤ ⌊q - 9⌋ := Int.floor_le_floor h1
        _ = ⌊q - ((9 : ℤ) : ℚ)⌋ := by norm_num
        _ = ⌊q⌋ - 9 := Int.floor_sub_int q 9
      obtain ⟨f, z, hf⟩ := ih (q / 10) (by positivity) (by omega) (r + 1)
      refine ⟨f + 1, z, ?_⟩
      have hc : ege (Ext.fin q) (.fin 10) = true := by
        simp [ege, ele, elt, eeq, decide_eq_true_eq]
        rcases lt_or_eq_of_le hq10 with h | h
        · exact Or.inl h
        · exact Or.inr h
      have hd : ediv (Ext.fin q) (.fin 10) = Ext.fin (q / 10) := by norm_num [ediv]
      simp only [sigdigitUp, hc, if_true, hd]
      exact hf

/-- Helper: the multiplication loop returns on positive input, by induction on an
exponent k with 1 <= q * 10^k. -/
theorem sigdigitDown_terminates (k : ℕ) (q : ℚ) (hq : 0 < q) (hk : 1 ≤ q * 10 ^ k)
    (r : ℤ) : ∃ fuel z, sigdigitDown fuel (.fin q) r = some z := by
  induction k generalizing q r with
  | zero =>
    refine ⟨1, r, ?_⟩
    have hc : elt (Ext.fin q) (.fin 1) = false := by
      simp only [pow_zero, mul_one] at hk
      simp [elt, decide_eq_true_eq]
      linarith
    simp [sigdigitDown, hc]
  | succ m ih =>
    by_cases h1 : 1 ≤ q
    · refine ⟨1, r, ?_⟩
      have hc : elt (Ext.fin q) (.fin 1) = false := by
        simp [elt, decide_eq_true_eq]
        linarith
      simp [sigdigitDown, hc]
    · push_neg at h1
      obtain ⟨f, z, hf⟩ := ih (q * 10) (by positivity) (by
        have heq : q * 10 * 10 ^ m = q * 10 ^ (m + 1) := by ring
        rw [heq]
        exact hk) (r - 1)
      refine ⟨f + 1, z, ?_⟩
      have hc : elt (Ext.fin q) (.fin 1) = true := by
        simp [elt, decide_eq_true_eq]
        linarith
      have hm : emul (Ext.fin q) (.fin 10) = Ext.fin (q * 10) := by norm_num [emul]
      simp only [sigdigitDown, hc, if_true, hm]
      exact hf

/-- C10 (amended): sigdigit, with the precondition finite and nonnegative, returns a
value with enough fuel (for 0 the sentinel i32::MIN immediately); without the
precondition the loops make no progress for negative finite arguments and for the two
infinities (no fuel suffices); NaN, however, falls through both loop guards and
returns 0 immediately, so the precondition is sufficient but not necessary. -/
theorem c10_sigdigit_totality :
    (∀ q : ℚ, 0 ≤ q → ∃ fuel z, sigdigit fuel (.fin q) = some z) ∧
    (∀ fuel, sigdigit fuel (.fin 0) = some (-2147483648)) ∧
    (∀ q : ℚ, q < 0 → ∀ fuel, sigdigit fuel (.fin q) = Option.none) ∧
    (∀ fuel, sigdigit fuel .pinf = Option.none) ∧
    (∀ fuel, sigdigit fuel .ninf = Option.none) ∧
    (∀ fuel, sigdigit (fuel + 1) .nan = some 0) := by
  have hzero : ∀ fuel, sigdigit fuel (.fin 0) = some (-2147483648) := by
    intro fuel
    simp [sigdigit, eeq]
  refine ⟨?_, hzero, ?_, ?_, ?_, ?_⟩
  · intro q h0
    rcases eq_or_lt_of_le h0 with h | hpos
    · exact ⟨0, -2147483648, by rw [← h]; exact hzero 0⟩
    · have heq : eeq (Ext.fin q) (.fin 0) = false := by
        simp [eeq]
        exact (ne_of_gt hpos)
      by_cases h1 : 1 < q
      · have hgt : egt (Ext.fin q) (.fin 1) = true := by
          simp [egt, elt, decide_eq_true_eq]
          exact h1
        obtain ⟨f, z, hf⟩ := sigdigitUp_terminates (⌊q⌋).toNat q hpos le_rfl 0
        refine ⟨f, z, ?_⟩
        simp only [sigdigit, heq, Bool.false_eq_true, if_false, hgt, if_true]
        exact hf
      · have hgt : egt (Ext.fin q) (.fin 1) = false := by
          simp [egt, elt, decide_eq_true_eq]
          exact le_of_not_lt h1
        obtain ⟨k, hk⟩ := pow_unbounded_of_one_lt (α := ℚ) q⁻¹ (by norm_num : (1:ℚ) < 10)
        have hk1 : 1 ≤ q * 10 ^ k := by
          have := mul_lt_mul_of_pos_left hk hpos
          rw [mul_inv_cancel₀ (ne_of_gt hpos)] at this
          exact le_of_lt this
        obtain ⟨f, z, hf⟩ := sigdigitDown_terminates k q hpos hk1 0
        refine ⟨f, z, ?_⟩
        simp only [sigdigit, heq, Bool.false_eq_true, if_false, hgt]
        exact hf
  · intro q hneg fuel
    have heq : eeq (Ext.fin q) (.fin 0) = false := by
      simp [eeq]
      exact (ne_of_lt hneg)
    have hgt : egt (Ext.fin q) (.fin 1) = false := by
      simp [egt, elt, decide_eq_true_eq]
      linarith
    simp only [sigdigit, heq, Bool.false_eq_true, if_false, hgt]
    exact sigdigitDown_neg_none fuel q hneg 0
  · intro fuel
    simp only [sigdigit, show eeq Ext.pinf (.fin 0) = false from rfl,
      show egt Ext.pinf (.fin 1) = true from rfl, Bool.false_eq_true, if_false, if_true]
    exact sigdigitUp_pinf_none fuel 0
  · intro fuel
    simp only [sigdigit, show eeq Ext.ninf (.fin 0) = false from rfl,
      show egt Ext.ninf (.fin 1) = false from rfl, Bool.false_eq_true, if_false]
    exact sigdigitDown_ninf_none fuel 0
  · intro fuel
    rfl

/-- C10 counterexample to the claim as stated: NaN is a non-finite argument on which
sigdigit terminates (returning 0), so the loops do make progress outside the claimed
precondition domain. -/
theorem c10_counterexample : sigdigit 1 .nan = some 0 ∧ Ext.nan.isNan = true :=
  ⟨rfl, rfl⟩

/-- C10 witness: the termination statement applied at the concrete input 4. -/
theorem c10_witness : (0 : ℚ) ≤ 4 ∧ (∃ fuel z, sigdigit fuel (Ext.fin 4) = some z) :=
  ⟨by norm_num, c10_sigdigit_totality.1 4 (by norm_num)⟩


/-- Helper: IEEE <= on finite values is the rational order. -/
theorem ele_fin_iff (a b : ℚ) : ele (.fin a) (.fin b) = true ↔ a ≤ b := by
  simp [ele, elt, eeq, decide_eq_true_eq, Bool.or_eq_true, beq_iff_eq]
  exact le_iff_lt_or_eq.symm

/-- Helper: f64::min on finite values is the rational min. -/
theorem eminF_fin (a b : ℚ) : eminF (.fin a) (.fin b) = .fin (min a b) := by
  by_cases h : a ≤ b
  · have hel : ele (.fin a) (.fin b) = true := (ele_fin_iff a b).mpr h
    simp [eminF, Ext.isNan, hel, min_eq_left h]
  · have hel : ele (.fin a) (.fin b) = false := by
      cases hE : ele (.fin a) (.fin b)
      · rfl
      · exact absurd ((ele_fin_iff a b).mp hE) h
    simp [eminF, Ext.isNan, hel, min_eq_right (le_of_not_le h)]

/-- Helper: f64::max on finite values is the rational max. -/
theorem emaxF_fin (a b : ℚ) : emaxF (.fin a) (.fin b) = .fin (max a b) := by
  by_cases h : b ≤ a
  · have hel : ege (.fin a) (.fin b) = true := (ele_fin_iff b a).mpr h
    simp [emaxF, Ext.isNan, hel, max_eq_left h]
  · have hel : ege (.fin a) (.fin b) = false := by
      cases hE : ege (.fin a) (.fin b)
      · rfl
      · exact absurd ((ele_fin_iff b a).mp hE) h
    simp [emaxF, Ext.isNan, hel, max_eq_right (le_of_not_le h)]

/-- Helper: f64::min of +inf and a finite value. -/
theorem eminF_pinf_fin (b : ℚ) : eminF .pinf (.fin b) = .fin b := by
  simp [eminF, Ext.isNan, ele, elt, eeq]

/-- Helper: f64::max of -inf and a finite value. -/
theorem emaxF_ninf_fin (b : ℚ) : emaxF .ninf (.fin b) = .fin b := by
  simp [emaxF, Ext.isNan, ege, ele, elt, eeq]

/-- Helper: IEEE subtraction on finite values. -/
theorem esub_fin (a b : ℚ) : esub (.fin a) (.fin b) = .fin (a - b) := by
  simp [esub, eadd, eneg, sub_eq_add_neg]

/-- Helper: IEEE addition on finite values. -/
theorem eadd_fin (a b : ℚ) : eadd (.fin a) (.fin b) = .fin (a + b) := rfl

/-- Helper: IEEE multiplication on finite values. -/
theorem emul_fin (a b : ℚ) : emul (.fin a) (.fin b) = .fin (a * b) := rfl

/-- C2 (amended): registering a finite, ordered data extent on an axis under the Auto
limit policy sets the span to the elementwise union of the previous span and the
extent (the extent itself when no usable span existed), sets the limits to the span
widened on each side by 5% of its extent, and reestablishes span within limits and
span well-formedness; an axis under Manual limits is returned unchanged.  The
finiteness hypotheses are the amendment: for non-finite (yet non-NaN) data the limits
degenerate to NaN and the invariant fails, see the counterexample. -/
theorem c2_span_limits (ax : AxisBuf) (q1 q2 : ℚ) (h12 : q1 ≤ q2)
    (hwf : SpanWF ax.span) :
    (∀ mn mx, ax.limitPolicy = .manual mn mx →
      registerOnAxis ax (.fin q1) (.fin q2) = ax) ∧
    (ax.limitPolicy = .auto → ax.span = Option.none →
      (registerOnAxis ax (.fin q1) (.fin q2)).span = some (.fin q1, .fin q2) ∧
      (registerOnAxis ax (.fin q1) (.fin q2)).limits =
        some (.fin (q1 - 1 / 20 * (q2 - q1)), .fin (q2 + 1 / 20 * (q2 - q1))) ∧
      spanWithinLimits (registerOnAxis ax (.fin q1) (.fin q2)) = true ∧
      SpanWF (registerOnAxis ax (.fin q1) (.fin q2)).span) ∧
    (∀ qa qb : ℚ, ax.limitPolicy = .auto → ax.span = some (.fin qa, .fin qb) →
      (registerOnAxis ax (.fin q1) (.fin q2)).span =
        some (.fin (min qa q1), .fin (max qb q2)) ∧
      (registerOnAxis ax (.fin q1) (.fin q2)).limits =
        some (.fin (min qa q1 - 1 / 20 * (max qb q2 - min qa q1)),
              .fin (max qb q2 + 1 / 20 * (max qb q2 - min qa q1))) ∧
      spanWithinLimits (registerOnAxis ax (.fin q1) (.fin q2)) = true ∧
      SpanWF (registerOnAxis ax (.fin q1) (.fin q2)).span) ∧
    (ax.limitPolicy = .auto → ax.span = some (.pinf, .ninf) →
      (registerOnAxis ax (.fin q1) (.fin q2)).span = some (.fin q1, .fin q2) ∧
      spanWithinLimits (registerOnAxis ax (.fin q1) (.fin q2)) = true) := by
  refine ⟨?_, ?_, ?_, ?_⟩
  · intro mn mx hpol
    unfold registerOnAxis
    rw [hpol]
  · intro hpol hspan
    unfold registerOnAxis
    rw [hpol]
    simp only [hspan, esub_fin, emul_fin, eadd_fin]
    refine ⟨trivial, trivial, ?_, ?_⟩
    · simp only [spanWithinLimits]
      rw [Bool.and_eq_true, ele_fin_iff, ele_fin_iff]
      constructor
      · linarith
      · linarith
    · exact Or.inr ⟨q1, q2, rfl, rfl, h12⟩
  · intro qa qb hpol hspan
    have hord : qa ≤ qb := by
      rw [hspan] at hwf
      rcases hwf with ⟨h1, _⟩ | ⟨qa', qb', h1, h2, hle⟩
      · exact absurd h1 (by simp)
      · cases h1
        cases h2
        exact hle
    have hmm : min qa q1 ≤ max qb q2 :=
      le_trans (min_le_right qa q1) (le_trans h12 (le_max_right qb q2))
    unfold registerOnAxis
    rw [hpol]
    simp only [hspan, eminF_fin, emaxF_fin, esub_fin, emul_fin, eadd_fin]
    refine ⟨trivial, trivial, ?_, ?_⟩
    · simp only [spanWithinLimits]
      rw [Bool.and_eq_true, ele_fin_iff, ele_fin_iff]
      constructor
      · linarith
      · linarith
    · exact Or.inr ⟨min qa q1, max qb q2, rfl, rfl, hmm⟩
  · intro hpol hspan
    unfold registerOnAxis
    rw [hpol]
    simp only [hspan, eminF_pinf_fin, emaxF_ninf_fin, esub_fin, emul_fin, eadd_fin]
    refine ⟨trivial, ?_⟩
    simp only [spanWithinLimits]
    rw [Bool.and_eq_true, ele_fin_iff, ele_fin_iff]
    constructor
    · linarith
    · linarith


/-- C2 counterexample to the claim as stated: registering the x-data [+inf] (which
passes validation, since only NaN is rejected) gives the x-axis span (+inf, +inf),
whose extent is the NaN +inf - +inf; the limits become (NaN, NaN) and the invariant
span within limits fails under the IEEE comparisons. -/
theorem c2_counterexample :
    (Subplot.plot defaultSubplot [Ext.pinf] [Ext.fin 0]).2 = Option.none ∧
    (Subplot.plot defaultSubplot [Ext.pinf] [Ext.fin 0]).1.xaxis.span =
      some (.pinf, .pinf) ∧
    (Subplot.plot defaultSubplot [Ext.pinf] [Ext.fin 0]).1.xaxis.limits =
      some (.nan, .nan) ∧
    spanWithinLimits (Subplot.plot defaultSubplot [Ext.pinf] [Ext.fin 0]).1.xaxis =
      false := by
  refine ⟨rfl, ?_, ?_, ?_⟩ <;>
  norm_num [Subplot.plot, Subplot.plotDesc, Subplot.setAxis, Subplot.getAxis,
    registerOnAxis, defaultSubplot, defaultAxis, SeriesData.xmin, SeriesData.xmax,
    SeriesData.ymin, SeriesData.ymax, eminF, emaxF, Ext.isNan, ele, elt, eeq, ege,
    esub, eadd, eneg, emul, spanWithinLimits, PlotDescriptor.default]

/-- C2 witness: the amended statement applied to the default axis and the finite
data extent (1, 2). -/
theorem c2_witness :
    (1 : ℚ) ≤ 2 ∧ SpanWF defaultAxis.span ∧
    ((registerOnAxis defaultAxis (.fin 1) (.fin 2)).span = some (.fin 1, .fin 2) ∧
      (registerOnAxis defaultAxis (.fin 1) (.fin 2)).limits =
        some (.fin (1 - 1 / 20 * (2 - 1)), .fin (2 + 1 / 20 * (2 - 1))) ∧
      spanWithinLimits (registerOnAxis defaultAxis (.fin 1) (.fin 2)) = true ∧
      SpanWF (registerOnAxis defaultAxis (.fin 1) (.fin 2)).span) :=
  ⟨by norm_num, trivial,
    (c2_span_limits defaultAxis 1 2 (by norm_num) trivial).2.1 rfl rfl⟩

/-- C7 (amended): point-series registration fails, with an InvalidData error and the
subplot left completely unchanged, exactly when the x and y lengths differ or a
coordinate is NaN; step-series registration likewise with the edge count differing
from the value count plus one; fill-between registration, however, performs no
validation at all and always succeeds (see the counterexample). -/
theorem c7_invalid_data (sp : Subplot) (xs ys es y1 y2 : List Ext) :
    ((Subplot.plot sp xs ys).2 ≠ Option.none ↔
      xs.length ≠ ys.length ∨ xs.any Ext.isNan = true ∨ ys.any Ext.isNan = true) ∧
    ((Subplot.plot sp xs ys).2 ≠ Option.none → (Subplot.plot sp xs ys).1 = sp) ∧
    (∀ e, (Subplot.plot sp xs ys).2 = some e → ∃ msg, e = .invalidData msg) ∧
    ((Subplot.step sp es ys).2 ≠ Option.none ↔
      es.length ≠ ys.length + 1 ∨ es.any Ext.isNan = true ∨ ys.any Ext.isNan = true) ∧
    ((Subplot.step sp es ys).2 ≠ Option.none → (Subplot.step sp es ys).1 = sp) ∧
    (∀ e, (Subplot.step sp es ys).2 = some e → ∃ msg, e = .invalidData msg) ∧
    (Subplot.fillBetween sp xs y1 y2).2 = Option.none := by
  refine ⟨?_, ?_, ?_, ?_, ?_, ?_, rfl⟩
  · unfold Subplot.plot
    split_ifs with h1 h2 h3 <;> simp_all
  · unfold Subplot.plot
    split_ifs with h1 h2 h3 <;> simp_all
  · unfold Subplot.plot
    split_ifs with h1 h2 h3 <;> intro e he <;>
      (try simp only [Option.some.injEq] at he) <;>
      first
        | exact ⟨_, he.symm⟩
        | simp_all
  · unfold Subplot.step
    split_ifs with h1 h2 h3 <;> simp_all
  · unfold Subplot.step
    split_ifs with h1 h2 h3 <;> simp_all
  · unfold Subplot.step
    split_ifs with h1 h2 h3 <;> intro e he <;>
      (try simp only [Option.some.injEq] at he) <;>
      first
        | exact ⟨_, he.symm⟩
        | simp_all

/-- C7 counterexample to the claim as stated: a fill-between pair with mismatched
lengths and a NaN coordinate is accepted without error and the fill entry is
recorded, while the claim requires an InvalidData failure for such input. -/
theorem c7_counterexample :
    (Subplot.fillBetween defaultSubplot [Ext.fin 0] [Ext.fin 0, Ext.fin 1]
      [Ext.nan]).2 = Option.none ∧
    [Ext.fin 0].length ≠ [Ext.fin 0, Ext.fin 1].length ∧
    [Ext.nan].any Ext.isNan = true ∧
    (Subplot.fillBetween defaultSubplot [Ext.fin 0] [Ext.fin 0, Ext.fin 1]
      [Ext.nan]).1.fillInfos.length = 1 := by
  refine ⟨rfl, by decide, rfl, rfl⟩

/-- C7 witness: the amended statement applied to mismatched point data (lengths 1
and 2) and mismatched step data (4 edges, 4 values). -/
theorem c7_witness :
    ((Subplot.plot defaultSubplot [Ext.fin 0] [Ext.fin 1, Ext.fin 2]).2 ≠
      Option.none) ∧
    (Subplot.plot defaultSubplot [Ext.fin 0] [Ext.fin 1, Ext.fin 2]).1 =
      defaultSubplot ∧
    ((Subplot.step defaultSubplot [Ext.fin 0, .fin 1, .fin 2, .fin 3]
        [Ext.fin 0, .fin 1, .fin 2, .fin 3]).2 ≠ Option.none) := by
  have h1 := (c7_invalid_data defaultSubplot [Ext.fin 0] [Ext.fin 1, Ext.fin 2]
    [Ext.fin 0, .fin 1, .fin 2, .fin 3] [] []).1.mpr (Or.inl (by decide))
  have h2 := (c7_invalid_data defaultSubplot [Ext.fin 0] [Ext.fin 1, Ext.fin 2]
    [Ext.fin 0, .fin 1, .fin 2, .fin 3] [] []).2.1 h1
  have h3 := (c7_invalid_data defaultSubplot [Ext.fin 0, .fin 1, .fin 2, .fin 3]
    [Ext.fin 0, .fin 1, .fin 2, .fin 3] [Ext.fin 0, .fin 1, .fin 2, .fin 3] []
    []).2.2.2.1.mpr (Or.inl (by decide))
  exact ⟨h1, h2, h3⟩


/-- C6 (amended): during the render pass, a NON-EMPTY manual tick-label override
whose length differs from the tick count aborts with BadTickLabels naming the axis
role; an override matching the tick count never fails; but an EMPTY manual override
is treated as absent labels (one empty string per tick) and does not fail even when
the tick count is non-zero, see the counterexample.  Manual overrides reach the check
unaltered (third conjunct). -/
theorem c6_bad_tick_labels (p : AxisType) (ticks : List Ext)
    (labels : List String) (fuel : ℕ) (m : ℤ) (off : Ext) :
    (labels ≠ [] → labels.length ≠ ticks.length →
      resolveTickLabels p ticks labels =
        .error (.badTickLabels
          ("number of tick labels does not match number of ticks on " ++
            axisRoleName p))) ∧
    (labels.length = ticks.length → resolveTickLabels p ticks labels = .ok labels) ∧
    majorLabelsOf fuel (.manual labels m off) ticks = some (.ok (labels, m, off)) := by
  refine ⟨?_, ?_, rfl⟩
  · intro hne hlen
    have h1 : labels.isEmpty = false := by
      simpa [List.isEmpty_iff] using hne
    unfold resolveTickLabels
    rw [h1]
    simp [hlen]
  · intro hlen
    rcases labels with _ | ⟨l, ls⟩
    · have hticks : ticks = [] := List.length_eq_zero.mp (by simpa using hlen.symm)
      subst hticks
      rfl
    · have h1 : ((l :: ls).isEmpty : Bool) = false := rfl
      unfold resolveTickLabels
      rw [h1]
      simp [hlen]

/-- C6 counterexample to the claim as stated: an empty manual override with three
ticks has a length that differs from the tick count, yet the render check succeeds
with empty per-tick labels instead of failing with BadTickLabels. -/
theorem c6_counterexample :
    resolveTickLabels .y [Ext.fin 0, Ext.fin 1, Ext.fin 2] [] = .ok ["", "", ""] ∧
    ([] : List String).length ≠ [Ext.fin 0, Ext.fin 1, Ext.fin 2].length ∧
    majorLabelsOf 5 (.manual [] 0 (.fin 0)) [Ext.fin 0, Ext.fin 1, Ext.fin 2] =
      some (.ok ([], 0, .fin 0)) :=
  ⟨rfl, by decide, rfl⟩

/-- C6 witness: the amended statement applied to a 1-label override on 2 ticks
(fails, naming the x-axis) and a 2-label override on 2 ticks (succeeds). -/
theorem c6_witness :
    (["a"] ≠ ([] : List String)) ∧
    (["a"].length ≠ [Ext.fin 0, Ext.fin 1].length) ∧
    resolveTickLabels .x [Ext.fin 0, Ext.fin 1] ["a"] =
      .error (.badTickLabels
        ("number of tick labels does not match number of ticks on " ++
          axisRoleName .x)) ∧
    (["u", "v"].length = [Ext.fin 0, Ext.fin 1].length) ∧
    resolveTickLabels .x [Ext.fin 0, Ext.fin 1] ["u", "v"] = .ok ["u", "v"] :=
  ⟨by decide, by decide,
    (c6_bad_tick_labels .x [Ext.fin 0, Ext.fin 1] ["a"] 0 0 (.fin 0)).1
      (by decide) (by decide),
    by decide,
    (c6_bad_tick_labels .x [Ext.fin 0, Ext.fin 1] ["u", "v"] 0 0 (.fin 0)).2.1
      (by decide)⟩


/-- Helper: the spec-side tick formula produces exactly n ticks. -/
theorem specCountTicks_length (n : ℕ) (span : Ext × Ext) :
    (specCountTicks n span).length = n := by
  unfold specCountTicks
  rw [List.length_map, List.length_range]

/-- C5 (amended): for a fixed count n (and for the auto default count 5), the major
ticks are exactly the spec formula min + (max-min)*i/(n-1) for i in 0..n over the
axis span; the auto minor tick count is 5x the major count PROVIDED 5x the major
count stays below 2^16 (the source computes it in u16 arithmetic, which wraps
otherwise -- see the counterexample); and minor ticks IEEE-equal to a major tick are
removed. -/
theorem c5_tick_placement (span : Ext × Ext) (n : ℕ) (major minor : List Ext) :
    majorTicksOf (.count n) span = specCountTicks n span ∧
    majorTicksOf .auto span = specCountTicks 5 span ∧
    (5 * major.length < 65536 →
      minorTicksRaw .auto major.length span =
        specCountTicks (5 * major.length) span) ∧
    removeOverlap major minor =
      minor.filter (fun t => !(major.any (fun m => eeq m t))) := by
  refine ⟨rfl, rfl, ?_, rfl⟩
  intro h5
  have hlen : major.length % 65536 = major.length := Nat.mod_eq_of_lt (by omega)
  have hstep : minorTicksRaw .auto major.length span =
      specCountTicks (5 * (major.length % 65536) % 65536) span := rfl
  rw [hstep, hlen, Nat.mod_eq_of_lt h5]

/-- C5 counterexample to the claim as stated: with 13108 major ticks the auto minor
count 5 * 13108 = 65540 wraps to 4 in u16 arithmetic, so the minor tick count is not
5x the major count. -/
theorem c5_counterexample :
    (minorTicksRaw .auto
        (majorTicksOf (.count 13108) (Ext.fin 0, Ext.fin 1)).length
        (Ext.fin 0, Ext.fin 1)).length ≠
      5 * (majorTicksOf (.count 13108) (Ext.fin 0, Ext.fin 1)).length := by
  have hmaj : (majorTicksOf (.count 13108) (Ext.fin 0, Ext.fin 1)).length = 13108 := by
    rw [show majorTicksOf (.count 13108) (Ext.fin 0, Ext.fin 1) =
        specCountTicks 13108 (Ext.fin 0, Ext.fin 1) from rfl, specCountTicks_length]
  rw [hmaj]
  rw [show minorTicksRaw .auto 13108 (Ext.fin 0, Ext.fin 1) =
      specCountTicks (5 * (13108 % 65536) % 65536) (Ext.fin 0, Ext.fin 1) from rfl,
    specCountTicks_length]
  decide

/-- C5 witness: the amended minor-count statement applied to a single major tick. -/
theorem c5_witness :
    5 * [Ext.fin 2].length < 65536 ∧
    minorTicksRaw .auto [Ext.fin 2].length (Ext.fin 0, Ext.fin 1) =
      specCountTicks (5 * [Ext.fin 2].length) (Ext.fin 0, Ext.fin 1) :=
  ⟨by decide,
    (c5_tick_placement (Ext.fin 0, Ext.fin 1) 3 [Ext.fin 2] []).2.2.1 (by decide)⟩


/-- C9: Figure::new computes BOTH canvas dimensions from figsize.0: width equals
height, replacing figsize.1 changes nothing (neither the size nor any subplot grid
rectangle derived from it), and in the representable range the stored dimension is
floor(figsize.0 * dpi). -/
theorem c9_figure_size (d : FigureDescriptor) (h' : ℚ) :
    (figureSize d).width = (figureSize d).height ∧
    figureSize { d with figsize1 := h' } = figureSize d ∧
    (∀ nrows ncols index,
      addSubplotArea (figureSize { d with figsize1 := h' }) nrows ncols index =
        addSubplotArea (figureSize d) nrows ncols index) ∧
    (0 ≤ d.figsize0 * (d.dpi : ℚ) → d.figsize0 * (d.dpi : ℚ) < 4294967296 →
      (figureSize d).width = (⌊d.figsize0 * (d.dpi : ℚ)⌋).toNat) := by
  refine ⟨rfl, rfl, fun nrows ncols index => rfl, ?_⟩
  intro h0 hlt
  unfold figureSize castU32
  simp only [if_neg (not_lt.mpr h0)]
  have h2 : ⌊d.figsize0 * (d.dpi : ℚ)⌋ < 4294967296 := by
    rw [Int.floor_lt]
    exact_mod_cast hlt
  have h3 : (⌊d.figsize0 * (d.dpi : ℚ)⌋).toNat ≤ 4294967295 := by omega
  exact min_eq_right h3

/-- C9 witness: at figsize (6.75, 2.0) and dpi 100 the canvas is 675 x 675 and the
value is the floor of figsize.0 * dpi. -/
theorem c9_witness :
    (0 : ℚ) ≤ 27 / 4 * ((100 : ℕ) : ℚ) ∧
    (27 / 4 * ((100 : ℕ) : ℚ) : ℚ) < 4294967296 ∧
    (figureSize { figsize0 := 27 / 4, figsize1 := 2, dpi := 100 }).width =
      (⌊(27 / 4 : ℚ) * ((100 : ℕ) : ℚ)⌋).toNat ∧
    (figureSize { figsize0 := 27 / 4, figsize1 := 2, dpi := 100 }).width = 675 := by
  refine ⟨by norm_num, by norm_num, ?_, ?_⟩
  · exact (c9_figure_size { figsize0 := 27 / 4, figsize1 := 2, dpi := 100 } 5).2.2.2
      (by norm_num) (by norm_num)
  · norm_num [figureSize, castU32]
    decide


/-- Helper: wrapped u32 addition stays below 2^32. -/
theorem add32_lt (a b : ℕ) : add32 a b < 4294967296 := Nat.mod_lt _ (by norm_num)

/-- Helper: the u32 wrap stays below 2^32. -/
theorem w32_lt (a : ℕ) : w32 a < 4294967296 := Nat.mod_lt _ (by norm_num)

/-- Helper: wrapped u32 multiplication stays below 2^32. -/
theorem mul32_lt (a b : ℕ) : mul32 a b < 4294967296 := Nat.mod_lt _ (by norm_num)

/-- Helper: the tick buffer is a u32 value. -/
theorem tickBuffer_lt (cfg : LayoutIn) (p : AxisType) :
    tickBuffer cfg p < 4294967296 := add32_lt _ _

/-- Helper: the tick-label buffer is a u32 value. -/
theorem tickLabelBuffer_lt (cfg : LayoutIn) (p : AxisType) :
    tickLabelBuffer cfg p < 4294967296 := add32_lt _ _

/-- Helper: the modifier buffer is a u32 value. -/
theorem modifierBuffer_lt (cfg : LayoutIn) (p : AxisType) :
    modifierBuffer cfg p < 4294967296 := add32_lt _ _

/-- Helper: the label buffer is a u32 value. -/
theorem labelBuffer_lt (cfg : LayoutIn) (p : AxisType) :
    labelBuffer cfg p < 4294967296 := add32_lt _ _

/-- Helper: the subplot buffer is a u32 value. -/
theorem subplotBuffer_lt (cfg : LayoutIn) (p : AxisType) :
    subplotBuffer cfg p < 4294967296 := by
  unfold subplotBuffer
  split
  · exact mul32_lt _ _
  · exact w32_lt _

/-- Helper: the title buffer is a u32 value. -/
theorem titleBuffer_lt (cfg : LayoutIn) : titleBuffer cfg < 4294967296 := by
  unfold titleBuffer
  split
  · exact w32_lt _
  · norm_num

/-- C1 (amended): whenever the accumulated side buffers fit inside the subplot area
(no u32 wrap-around: the subplot coordinates are u32 values, the left/bottom chains
of additions stay below 2^32 and the right/top chains of subtractions stay
nonnegative), the layout rectangles are nested, plot-area = tick-boundary within
tick-label-boundary within modifier-boundary within label-boundary within the
subplot area, and every accumulated pixel buffer is nonnegative.  The fit hypotheses
are the amendment (the spec itself says "non-degenerate configuration"): on a
degenerate area the u32 arithmetic wraps and the nesting fails, see the
counterexample. -/
theorem c1_layout_containment (cfg : LayoutIn)
    (hxmax : cfg.area.xmax < 4294967296)
    (hymax : cfg.area.ymax < 4294967296)
    (hleft : cfg.area.xmin + (subplotBuffer cfg .y + labelBuffer cfg .y +
      modifierBuffer cfg .y + tickLabelBuffer cfg .y + tickBuffer cfg .y) < 4294967296)
    (hbot : cfg.area.ymin + (subplotBuffer cfg .x + labelBuffer cfg .x +
      modifierBuffer cfg .x + tickLabelBuffer cfg .x + tickBuffer cfg .x) < 4294967296)
    (hright : subplotBuffer cfg .secondaryY + labelBuffer cfg .secondaryY +
      modifierBuffer cfg .secondaryY + tickLabelBuffer cfg .secondaryY +
      tickBuffer cfg .secondaryY ≤ cfg.area.xmax)
    (htop : subplotBuffer cfg .secondaryX + titleBuffer cfg +
      labelBuffer cfg .secondaryX + modifierBuffer cfg .secondaryX +
      tickLabelBuffer cfg .secondaryX + tickBuffer cfg .secondaryX ≤ cfg.area.ymax) :
    (plotArea cfg).containedIn (tickBoundary cfg) ∧
    (tickBoundary cfg).containedIn (tickLabelBoundary cfg) ∧
    (tickLabelBoundary cfg).containedIn (modifierBoundary cfg) ∧
    (modifierBoundary cfg).containedIn (labelBoundary cfg) ∧
    (labelBoundary cfg).containedIn cfg.area ∧
    (∀ p, 0 ≤ tickBuffer cfg p ∧ 0 ≤ tickLabelBuffer cfg p ∧
      0 ≤ modifierBuffer cfg p ∧ 0 ≤ labelBuffer cfg p ∧
      0 ≤ subplotBuffer cfg p ∧ 0 ≤ titleBuffer cfg) := by
  have hky := tickBuffer_lt cfg .y
  have hty := tickLabelBuffer_lt cfg .y
  have hmy := modifierBuffer_lt cfg .y
  have hly := labelBuffer_lt cfg .y
  have hsy := subplotBuffer_lt cfg .y
  have hkx := tickBuffer_lt cfg .x
  have htx := tickLabelBuffer_lt cfg .x
  have hmx := modifierBuffer_lt cfg .x
  have hlx := labelBuffer_lt cfg .x
  have hsx := subplotBuffer_lt cfg .x
  have hksy := tickBuffer_lt cfg .secondaryY
  have htsy := tickLabelBuffer_lt cfg .secondaryY
  have hmsy := modifierBuffer_lt cfg .secondaryY
  have hlsy := labelBuffer_lt cfg .secondaryY
  have hssy := subplotBuffer_lt cfg .secondaryY
  have hksx := tickBuffer_lt cfg .secondaryX
  have htsx := tickLabelBuffer_lt cfg .secondaryX
  have hmsx := modifierBuffer_lt cfg .secondaryX
  have hlsx := labelBuffer_lt cfg .secondaryX
  have hssx := subplotBuffer_lt cfg .secondaryX
  have httl := titleBuffer_lt cfg
  refine ⟨?_, ?_, ?_, ?_, ?_,
    fun p => ⟨Nat.zero_le _, Nat.zero_le _, Nat.zero_le _, Nat.zero_le _,
      Nat.zero_le _, Nat.zero_le _⟩⟩ <;>
  · simp only [Area.containedIn, plotArea, tickBoundary, tickLabelBoundary,
      modifierBoundary, labelBoundary, titleBoundary, add32, sub32, w32]
    refine ⟨?_, ?_, ?_, ?_⟩ <;> omega


/-- C1 counterexample to the claim as stated: on a zero-height subplot area (which
add_subplot produces on a zero-height canvas) with a non-empty title, the u32
subtraction for the top margin wraps, so the label boundary is no longer contained
in the subplot area. -/
theorem c1_counterexample :
    ¬ ((labelBoundary degenerateLayout).containedIn degenerateLayout.area) := by
  decide

/-- C1 witness: the amended containment applied to a representative non-degenerate
layout (1000 x 1000 area, default-like formatting, labels and ticks on all axes). -/
theorem c1_witness :
    typicalLayout.area.xmax < 4294967296 ∧
    typicalLayout.area.ymax < 4294967296 ∧
    typicalLayout.area.xmin + (subplotBuffer typicalLayout .y +
      labelBuffer typicalLayout .y + modifierBuffer typicalLayout .y +
      tickLabelBuffer typicalLayout .y + tickBuffer typicalLayout .y) < 4294967296 ∧
    typicalLayout.area.ymin + (subplotBuffer typicalLayout .x +
      labelBuffer typicalLayout .x + modifierBuffer typicalLayout .x +
      tickLabelBuffer typicalLayout .x + tickBuffer typicalLayout .x) < 4294967296 ∧
    subplotBuffer typicalLayout .secondaryY + labelBuffer typicalLayout .secondaryY +
      modifierBuffer typicalLayout .secondaryY +
      tickLabelBuffer typicalLayout .secondaryY +
      tickBuffer typicalLayout .secondaryY ≤ typicalLayout.area.xmax ∧
    subplotBuffer typicalLayout .secondaryX + titleBuffer typicalLayout +
      labelBuffer typicalLayout .secondaryX + modifierBuffer typicalLayout .secondaryX +
      tickLabelBuffer typicalLayout .secondaryX +
      tickBuffer typicalLayout .secondaryX ≤ typicalLayout.area.ymax ∧
    (labelBoundary typicalLayout).containedIn typicalLayout.area ∧
    (plotArea typicalLayout).containedIn (tickBoundary typicalLayout) := by
  have h := c1_layout_containment typicalLayout (by decide) (by decide) (by decide)
    (by decide) (by decide) (by decide)
  exact ⟨by decide, by decide, by decide, by decide, by decide, by decide,
    h.2.2.2.2.1, h.1⟩

end Plt
